import Mathlib

/-!
# Verification of the review-sentiment dashboard backend

Shallow embedding of `backend/app.py` (annotation pipeline, retrieval
engine) and `backend/semantic_search.py` (semantic search engine), with
theorems settling the specification claims.

Modelling conventions:
* Python floats are modelled as `ℚ`; `round(x, 3)` is modelled as exact
  rational rounding to 3 decimal places.
* A pandas cell that may be `NaN` (absent `comments`) is `Option String`;
  `pd.isna` is the `none` test.
* The external VADER scorer (`vader_analyzer.polarity_scores`) is an
  opaque collaborator: a parameter `scorer : String → Option VaderRaw`,
  where `none` models the scorer raising an exception.
* The external OpenAI embedding generator is likewise a parameter
  `embed : String → Option (List ℚ)`, `none` modelling failure.
* `math.sqrt`-style float square roots (inside sklearn's
  `cosine_similarity`) are modelled by an exact rational square root that
  agrees with the float one on perfect squares; no claim depends on the
  value of an inexact square root.
* Python's `re` engine (behind `Series.str.contains(..., regex=True)`)
  is an opaque collaborator `re_compile : String → Option (String → Bool)`,
  `none` modelling `re.compile` raising `re.error`.
* `np.argsort` is an opaque collaborator constrained only by its
  documented contract (`sortsAscending`): an ascending-by-key
  permutation of the indices, with no tie-order guarantee (the default
  quicksort is not stable above numpy's ≈16-element insertion-sort
  cutoff); below that cutoff numpy runs a stable insertion sort,
  modelled concretely by `argsortInsertion`.
-/

/-- Sentiment label enum; serialized as the strings
`"positive"/"negative"/"neutral"` at the boundary. -/
inductive Sentiment where
  | positive
  | negative
  | neutral
deriving DecidableEq, Repr, Inhabited

/-- The string form stored in the `sentiment` column of the DataFrame. -/
def Sentiment.toStr : Sentiment → String
  | .positive => "positive"
  | .negative => "negative"
  | .neutral => "neutral"

/-- Raw output of `vader_analyzer.polarity_scores(text)`:
the dict with keys `neg`, `neu`, `pos`, `compound`. -/
structure VaderRaw where
  neg : ℚ
  neu : ℚ
  pos : ℚ
  compound : ℚ
deriving DecidableEq, Repr, Inhabited

/-- The dict returned by `analyze_sentiment_vader`. -/
structure SentimentResult where
  polarity : ℚ
  subjectivity : ℚ
  sentiment : Sentiment
  compound : ℚ
  positive : ℚ
  negative : ℚ
  neutral_score : ℚ
deriving DecidableEq, Repr, Inhabited

/-- The neutral fallback dict returned by `analyze_sentiment_vader` for
empty/absent text (lines 64–73) and on scorer exception (lines 108–118). -/
def neutralDefault : SentimentResult :=
  { polarity := 0
    subjectivity := 1/2
    sentiment := .neutral
    compound := 0
    positive := 0
    negative := 0
    neutral_score := 1 }

/-- Python `round(x, 3)` on the rational model of a float. -/
def round3 (q : ℚ) : ℚ := (round (q * 1000) : ℤ) / 1000

/-- `analyze_sentiment_vader(text)` from `app.py`. `text : Option String`
models the pandas cell (`none` = `NaN`); `scorer t = none` models the
VADER call raising, caught by the `except` block. -/
def analyze_sentiment_vader (scorer : String → Option VaderRaw)
    (text : Option String) : SentimentResult :=
  match text with
  | none => neutralDefault
  | some t =>
    if t = "" then neutralDefault
    else
      match scorer t with
      | none => neutralDefault
      | some s =>
        let compound := s.compound
        let sentiment :=
          if compound ≥ 5/100 then Sentiment.positive
          else if compound ≤ -(5/100) then Sentiment.negative
          else Sentiment.neutral
        let polarity := compound
        let subjectivity := 1 - s.neu
        { polarity := round3 polarity
          subjectivity := round3 subjectivity
          sentiment := sentiment
          compound := round3 compound
          positive := round3 s.pos
          negative := round3 s.neg
          neutral_score := round3 s.neu }

/-- A raw CSV record as read by `pd.read_csv` (date still a string). -/
structure RawRecord where
  id : ℤ
  listing_id : ℤ
  date : String
  reviewer_name : String
  comments : Option String
deriving DecidableEq, Repr, Inhabited

/-- A row of the DataFrame `df` after `pd.to_datetime` succeeded.
`label` is the pandas index label: the row's position in the raw read,
preserved (not reset) by `drop_duplicates`. The parsed calendar date is
abstracted to `ℕ`. -/
structure ReviewRow where
  label : ℕ
  id : ℤ
  listing_id : ℤ
  date : ℕ
  reviewer_name : String
  comments : Option String
deriving DecidableEq, Repr, Inhabited

/-- A row of `df_with_sentiment`: the review plus its precomputed
sentiment columns. -/
structure ScoredRow where
  base : ReviewRow
  polarity : ℚ
  subjectivity : ℚ
  sentiment : Sentiment
  compound : ℚ
  positive : ℚ
  negative : ℚ
  neutral_score : ℚ
deriving DecidableEq, Repr, Inhabited

/-- `df['date'] = pd.to_datetime(df['date'])` (line 29): all-or-nothing
parse of every date in the frame; index labels are the read positions,
starting at `i`. `parseDate d = none` models `to_datetime` raising, which
fails the whole load. -/
def parseRows (parseDate : String → Option ℕ) :
    List RawRecord → ℕ → Option (List ReviewRow)
  | [], _ => some []
  | r :: rs, i =>
    match parseDate r.date with
    | none => none
    | some d =>
      (parseRows parseDate rs (i + 1)).map
        (fun ts =>
          { label := i, id := r.id, listing_id := r.listing_id, date := d,
            reviewer_name := r.reviewer_name, comments := r.comments } :: ts)

/-- Worker for `drop_duplicates(subset=['comments'], keep='first')`:
keep a row iff its `comments` value was not seen earlier (pandas treats
two `NaN` comments as duplicates of each other, hence equality on
`Option String`). -/
def dedupGo (seen : List (Option String)) : List ReviewRow → List ReviewRow
  | [] => []
  | r :: rs =>
    if r.comments ∈ seen then dedupGo seen rs
    else r :: dedupGo (r.comments :: seen) rs

/-- `df.drop_duplicates(subset=['comments'], keep='first')` (line 33). -/
def drop_duplicates (l : List ReviewRow) : List ReviewRow := dedupGo [] l

/-- Scoring one surviving row during the load loop (lines 44–57):
invoke `analyze_sentiment_vader` on the row's `comments` and attach the
result columns. -/
def annotateRow (scorer : String → Option VaderRaw) (r : ReviewRow) :
    ScoredRow :=
  let s := analyze_sentiment_vader scorer r.comments
  { base := r
    polarity := s.polarity
    subjectivity := s.subjectivity
    sentiment := s.sentiment
    compound := s.compound
    positive := s.positive
    negative := s.negative
    neutral_score := s.neutral_score }

/-- Process-wide mutable state served to readers. Endpoints other than
`health`/`dataset-info` read only the annotated frame
`df_with_sentiment`; the raw `df` global is not modelled because no
claim observes it. -/
structure AppState where
  df_with_sentiment : Option (List ScoredRow)
deriving DecidableEq, Repr, Inhabited

/-- `load_data(sample_size)` (lines 24–60): read up to `sample_size` raw
records, parse all dates (hard failure if any date is unparseable —
the `to_datetime` exception at line 29 propagates before
`df_with_sentiment` is assigned at line 50), deduplicate by `comments`,
score every survivor, and publish the new annotated frame.
`none` models the raised exception, with `df_with_sentiment` untouched. -/
def load_data (parseDate : String → Option ℕ)
    (scorer : String → Option VaderRaw) (src : List RawRecord)
    (sample_size : ℕ) : Option AppState :=
  let raw := src.take sample_size
  match parseRows parseDate raw 0 with
  | none => none
  | some rows =>
    let ded := drop_duplicates rows
    some { df_with_sentiment := some (ded.map (annotateRow scorer)) }

/-- `reload_data` (lines 151–174): with a truthy `batch_size`, re-invoke
`load_data` at `min(current + batch_size, sample_size)` where `current`
is the length of the currently served annotated frame; otherwise a full
load at `sample_size`. The `except` block catches a failed load and
leaves the served frame as it was (returns an error response, modelled
by the `false` flag). -/
def reload_data (parseDate : String → Option ℕ)
    (scorer : String → Option VaderRaw) (src : List RawRecord)
    (sample_size : ℕ) (batch_size : Option ℕ) (st : AppState) :
    AppState × Bool :=
  let new_size :=
    match batch_size with
    | some b =>
      if b ≠ 0 then
        min ((st.df_with_sentiment.getD []).length + b) sample_size
      else sample_size
    | none => sample_size
  match load_data parseDate scorer src new_size with
  | some st2 => (st2, true)
  | none => (st, false)

/-- The search filter of `get_reviews` (lines 218–219):
`filtered_df['comments'].str.contains(search_query, case=False,
na=False)` with the default `regex=True`, so a truthy query is compiled
as a regular expression. The Python `re` engine is an opaque external
collaborator `re_compile : String → Option (String → Bool)`: on a valid
pattern it yields the compiled `IGNORECASE` searcher
(`s ↦ bool(pattern.search(s))`, the `case=False` matcher applied to
each cell), and `none` models `re.compile` raising `re.error` on an
invalid pattern such as `"("`, which propagates out of the route (there
is no `try/except` in `get_reviews`). `na=False` makes an absent
comment never match. -/
def applySearchFilter (re_compile : String → Option (String → Bool))
    (corpus : List ScoredRow) (search_query : Option String) :
    Option (List ScoredRow) :=
  match search_query with
  | none => some corpus
  | some q =>
    if q = "" then some corpus
    else
      match re_compile q with
      | none => none
      | some p =>
        some (corpus.filter (fun r =>
          match r.base.comments with
          | none => false
          | some s => p s))

/-- The sentiment filter of `get_reviews` (lines 222–223): an exact
label filter when the value is one of the three valid labels (any other
value means no filter). -/
def applySentimentFilter (l : List ScoredRow)
    (sentiment_filter : Option String) : List ScoredRow :=
  match sentiment_filter with
  | none => l
  | some s =>
    if s = "" then l
    else if s = "positive" ∨ s = "negative" ∨ s = "neutral" then
      l.filter (fun r => r.sentiment.toStr = s)
    else l

/-- The filtering phase of `get_reviews` (lines 216–223): the regex
search filter first, then the sentiment filter; `none` propagates the
`re.error` of an invalid search pattern. -/
def filterReviews (re_compile : String → Option (String → Bool))
    (corpus : List ScoredRow)
    (search_query sentiment_filter : Option String) :
    Option (List ScoredRow) :=
  (applySearchFilter re_compile corpus search_query).map
    (fun f1 => applySentimentFilter f1 sentiment_filter)

/-- Response shape of `/api/reviews`. -/
structure ReviewsResponse where
  reviews : List ScoredRow
  total : ℕ
  page : ℕ
  per_page : ℕ
  total_pages : ℕ
deriving DecidableEq, Repr

/-- `get_reviews` (lines 203–256) over the currently served annotated
frame: filter, then the slice `iloc[(page-1)*per_page : page*per_page]`
(Python slicing clips to the frame length), and
`total_pages = (total + per_page - 1) // per_page`. `none` models the
uncaught `re.error` of an invalid search pattern: the route raises
(a 500), no page is returned. -/
def get_reviews (re_compile : String → Option (String → Bool))
    (corpus : List ScoredRow) (page per_page : ℕ)
    (sentiment_filter search_query : Option String) :
    Option ReviewsResponse :=
  match filterReviews re_compile corpus search_query sentiment_filter with
  | none => none
  | some filtered =>
    some { reviews := (filtered.drop ((page - 1) * per_page)).take per_page
           total := filtered.length
           page := page
           per_page := per_page
           total_pages := (filtered.length + per_page - 1) / per_page }

/-- A `re` engine instance for the counterexample: it fails to compile
the pattern `"("` — exactly as Python's `re.compile("(")` raises
`re.error` (missing closing parenthesis) — and matches everything
otherwise. -/
def reFailParen : String → Option (String → Bool) := fun pat =>
  if pat = "(" then none else some (fun _ => true)

/-- The excerpt dict built for `most_positive_review` /
`most_negative_review` in `get_statistics`: `comments[:200] + '...'`
plus the row's polarity, compound and reviewer name. (Python would
raise `TypeError` slicing a `NaN` comment; no claim exercises that, so
the absent case is read as `""`.) -/
structure ReviewExcerpt where
  comments : String
  polarity : ℚ
  compound : ℚ
  reviewer_name : String
deriving DecidableEq, Repr

/-- Build the excerpt from a row. -/
def statExcerpt (r : ScoredRow) : ReviewExcerpt :=
  { comments := ((r.base.comments.getD "").take 200) ++ "..."
    polarity := r.polarity
    compound := r.compound
    reviewer_name := r.base.reviewer_name }

/-- `df_with_sentiment['polarity'].idxmax()`: the pandas *index label*
of the first row attaining the maximum polarity (`none` on an empty
frame, where pandas raises). -/
def idxmaxPolarity (l : List ScoredRow) : Option ℕ :=
  match l with
  | [] => none
  | r :: rs =>
    some ((rs.foldl (fun best x => if x.polarity > best.polarity then x else best) r).base.label)

/-- `df_with_sentiment['polarity'].idxmin()`: the index label of the
first row attaining the minimum polarity. -/
def idxminPolarity (l : List ScoredRow) : Option ℕ :=
  match l with
  | [] => none
  | r :: rs =>
    some ((rs.foldl (fun best x => if x.polarity < best.polarity then x else best) r).base.label)

/-- The `most_positive_review` field of `get_statistics` (lines
284–294): the label returned by `idxmax` is fed to `iloc`, a
*positional* lookup (`l.get? lbl`); `none` also covers the `IndexError`
Python raises when the label is not a valid position. -/
def most_positive_review (l : List ScoredRow) : Option ReviewExcerpt :=
  match idxmaxPolarity l with
  | none => none
  | some lbl => (l.get? lbl).map statExcerpt

/-- The `most_negative_review` field of `get_statistics` (lines
296–302), with the same `idxmin`-label-into-`iloc` lookup. -/
def most_negative_review (l : List ScoredRow) : Option ReviewExcerpt :=
  match idxminPolarity l with
  | none => none
  | some lbl => (l.get? lbl).map statExcerpt

/-!
## Semantic search (`semantic_search.py`)
-/

/-- A `reviews_data` entry cached alongside each embedding vector. -/
structure CachedReview where
  id : ℤ
  listing_id : ℤ
  date : String
  reviewer_name : String
  comments : String
deriving DecidableEq, Repr, Inhabited

/-- One entry of the list returned by `SemanticSearch.search`: the
cached record dict plus its `similarity_score`. -/
structure SearchResult where
  record : CachedReview
  similarity_score : ℚ
deriving DecidableEq, Repr, Inhabited

/-- The `SemanticSearch` instance state: both fields are `None` until
`create_embeddings` has run. -/
structure SemanticSearch where
  embeddings : Option (List (List ℚ))
  reviews_data : Option (List CachedReview)
deriving DecidableEq, Repr, Inhabited

/-- Dot product of two vectors (`np.dot` over the rational float
model); extra coordinates of the longer vector are ignored. -/
def dotQ (a b : List ℚ) : ℚ := (List.zipWith (· * ·) a b).sum

/-- Rational model of the float square root inside sklearn's
`cosine_similarity` norm computation: exact on perfect squares (the only
inputs any theorem evaluates). -/
def ratSqrt (q : ℚ) : ℚ := (Nat.sqrt q.num.toNat : ℚ) / (Nat.sqrt q.den : ℚ)

/-- `sklearn.metrics.pairwise.cosine_similarity` of two vectors:
`(a·b)/(|a||b|)`, `0` when either norm is zero. -/
def cosineSim (a b : List ℚ) : ℚ :=
  let denom := ratSqrt (dotQ a a) * ratSqrt (dotQ b b)
  if denom = 0 then 0 else dotQ a b / denom

/-- `np.argsort`'s documented contract, and nothing more: the returned
index list is a permutation of `0..len-1` along which the keys are
ascending. The default `kind='quicksort'` fixes no order among equal
keys (it is not a stable sort above numpy's ≈16-element insertion-sort
cutoff), so the model takes the sorter as an opaque function
constrained only by this predicate. -/
def sortsAscending (argsort : List ℚ → List ℕ) : Prop :=
  ∀ keys, (argsort keys).Perm (List.range keys.length)
    ∧ (argsort keys).Pairwise (fun i j => keys.getD i 0 ≤ keys.getD j 0)

/-- The ascending comparison numpy's argsort realizes on the index list
for arrays below its introsort cutoff (≈16 elements), where the sort is
an insertion sort and therefore stable: index `i` before `j` when
`keys[i] < keys[j]`, equal keys in index order. -/
def argsortRel (keys : List ℚ) (i j : ℕ) : Prop :=
  keys.getD i 0 < keys.getD j 0 ∨ (keys.getD i 0 = keys.getD j 0 ∧ i ≤ j)

instance (keys : List ℚ) : DecidableRel (argsortRel keys) := fun i j => by
  unfold argsortRel; infer_instance

/-- The index comparison realized by `np.argsort` is total. -/
instance (keys : List ℚ) : IsTotal ℕ (argsortRel keys) :=
  ⟨fun i j => by
    unfold argsortRel
    rcases lt_trichotomy (keys.getD i 0) (keys.getD j 0) with h | h | h
    · exact Or.inl (Or.inl h)
    · rcases le_total i j with hij | hij
      · exact Or.inl (Or.inr ⟨h, hij⟩)
      · exact Or.inr (Or.inr ⟨h.symm, hij⟩)
    · exact Or.inr (Or.inl h)⟩

/-- The index comparison realized by `np.argsort` is transitive. -/
instance (keys : List ℚ) : IsTrans ℕ (argsortRel keys) :=
  ⟨fun i j k hij hjk => by
    unfold argsortRel at hij hjk ⊢
    rcases hij with h1 | ⟨h1, hi⟩
    · rcases hjk with h2 | ⟨h2, _⟩
      · exact Or.inl (h1.trans h2)
      · exact Or.inl (h2 ▸ h1)
    · rcases hjk with h2 | ⟨h2, hj⟩
      · exact Or.inl (h1 ▸ h2)
      · exact Or.inr ⟨h1.trans h2, hi.trans hj⟩⟩


/-- `np.argsort(keys)` on an array below numpy's introsort cutoff
(≈16 elements): there numpy runs insertion sort, which is stable, so
the indices come back ascending by key with equal keys in index order.
Used to evaluate the program's actual behavior on the concrete
two-element tie cache; larger arrays are covered only by the opaque
`sortsAscending` contract. -/
def argsortInsertion (keys : List ℚ) : List ℕ :=
  List.insertionSort (argsortRel keys) (List.range keys.length)

/-- `np.argsort(similarities)[::-1][:top_k]` (line 105), for a given
index sorter. -/
def topIndices (argsort : List ℚ → List ℕ) (sims : List ℚ)
    (top_k : ℕ) : List ℕ :=
  (argsort sims).reverse.take top_k

/-- `SemanticSearch.search(query, top_k)` (lines 87–113): empty when the
cache is unbuilt or the query embedding fails; otherwise score every
cached vector by cosine similarity against the query embedding, rank by
reversed `np.argsort` (passed as the opaque `argsort` collaborator),
and return the top `top_k` records with their scores. -/
def SemanticSearch.search (s : SemanticSearch)
    (argsort : List ℚ → List ℕ) (embed : String → Option (List ℚ))
    (query : String) (top_k : ℕ) : List SearchResult :=
  match s.embeddings, s.reviews_data with
  | some embs, some data =>
    match embed query with
    | none => []
    | some qe =>
      let sims := embs.map (cosineSim qe)
      (topIndices argsort sims top_k).map
        (fun i => { record := data.getD i default, similarity_score := sims.getD i 0 })
  | _, _ => []

/-!
## Concrete inputs used to exercise the definitions
-/

/-- A date parser that accepts everything (dates are irrelevant to the
statistics claims). -/
def anyDate : String → Option ℕ := fun _ => some 0

/-- A scorer assigning compound `0.1` to comment `"a"`, `0.9` to `"b"`
and `0.5` to everything else (all with `neu = 1`). -/
def scorerABC : String → Option VaderRaw := fun t =>
  if t = "a" then some { neg := 0, neu := 1, pos := 0, compound := 1/10 }
  else if t = "b" then some { neg := 0, neu := 1, pos := 0, compound := 9/10 }
  else some { neg := 0, neu := 1, pos := 0, compound := 1/2 }

/-- Four raw records whose first two share the `comments` text `"a"`,
so deduplication drops the row with index label 1 and the surviving
frame keeps the non-contiguous labels 0, 2, 3. -/
def rawABC : List RawRecord :=
  [ { id := 100, listing_id := 1, date := "2019-01-01", reviewer_name := "p", comments := some "a" },
    { id := 101, listing_id := 1, date := "2019-01-02", reviewer_name := "q", comments := some "a" },
    { id := 102, listing_id := 1, date := "2019-01-03", reviewer_name := "r", comments := some "b" },
    { id := 103, listing_id := 1, date := "2019-01-04", reviewer_name := "s", comments := some "c" } ]

/-- The surviving annotated row with index label 0 (polarity `0.1`). -/
def rowA : ScoredRow :=
  { base := { label := 0, id := 100, listing_id := 1, date := 0,
              reviewer_name := "p", comments := some "a" },
    polarity := 1/10, subjectivity := 0, sentiment := .positive,
    compound := 1/10, positive := 0, negative := 0, neutral_score := 1 }

/-- The surviving annotated row with index label 2 (polarity `0.9`). -/
def rowB : ScoredRow :=
  { base := { label := 2, id := 102, listing_id := 1, date := 0,
              reviewer_name := "r", comments := some "b" },
    polarity := 9/10, subjectivity := 0, sentiment := .positive,
    compound := 9/10, positive := 0, negative := 0, neutral_score := 1 }

/-- The surviving annotated row with index label 3 (polarity `0.5`). -/
def rowC : ScoredRow :=
  { base := { label := 3, id := 103, listing_id := 1, date := 0,
              reviewer_name := "s", comments := some "c" },
    polarity := 1/2, subjectivity := 0, sentiment := .positive,
    compound := 1/2, positive := 0, negative := 0, neutral_score := 1 }

/-- The annotated frame the pipeline serves for `rawABC`: labels
`[0, 2, 3]` with polarities `[0.1, 0.9, 0.5]`. -/
def corpusABC : List ScoredRow := [rowA, rowB, rowC]

/-- A built semantic-search cache holding two identical vectors, so both
cached records have the same similarity to any query. -/
def tieCache : SemanticSearch :=
  { embeddings := some [[1, 0], [1, 0]]
    reviews_data := some
      [ { id := 0, listing_id := 5, date := "2019-01-01", reviewer_name := "p", comments := "great" },
        { id := 1, listing_id := 5, date := "2019-01-02", reviewer_name := "q", comments := "great" } ] }

/-- An embedding generator that always returns the unit vector `[1, 0]`. -/
def embedConst : String → Option (List ℚ) := fun _ => some [1, 0]

/-!
## Claim theorems
-/

/-- C6: for every text whose scoring succeeds, the label is computed
from the compound score against the fixed `±0.05` thresholds
(`compound ≥ 0.05 →` positive, `compound ≤ -0.05 →` negative, strictly
between `→` neutral; so `0.06 →` positive, `0.00 →` neutral, `-0.10 →`
negative), and the returned polarity equals the returned compound score
(both the 3-decimal rounding of the raw compound). -/
theorem analyze_label_thresholds (scorer : String → Option VaderRaw)
    (t : String) (s : VaderRaw) (ht : t ≠ "") (hs : scorer t = some s) :
    (analyze_sentiment_vader scorer (some t)).sentiment =
      (if 5/100 ≤ s.compound then Sentiment.positive
       else if s.compound ≤ -(5/100) then Sentiment.negative
       else Sentiment.neutral)
    ∧ (analyze_sentiment_vader scorer (some t)).polarity =
        (analyze_sentiment_vader scorer (some t)).compound
    ∧ (analyze_sentiment_vader scorer (some t)).polarity = round3 s.compound
    ∧ (s.compound = 6/100 →
        (analyze_sentiment_vader scorer (some t)).sentiment = Sentiment.positive)
    ∧ (s.compound = 0 →
        (analyze_sentiment_vader scorer (some t)).sentiment = Sentiment.neutral)
    ∧ (s.compound = -(1/10) →
        (analyze_sentiment_vader scorer (some t)).sentiment = Sentiment.negative) := by
  have hm : analyze_sentiment_vader scorer (some t) =
      { polarity := round3 s.compound
        subjectivity := round3 (1 - s.neu)
        sentiment :=
          if 5/100 ≤ s.compound then Sentiment.positive
          else if s.compound ≤ -(5/100) then Sentiment.negative
          else Sentiment.neutral
        compound := round3 s.compound
        positive := round3 s.pos
        negative := round3 s.neg
        neutral_score := round3 s.neu } := by
    simp [analyze_sentiment_vader, ht, hs]
  rw [hm]
  refine ⟨rfl, rfl, rfl, ?_, ?_, ?_⟩ <;> intro h <;> rw [h] <;> norm_num

/-- Witness for C6 at compound `0.06`. -/
theorem analyze_label_thresholds_witness :
    (analyze_sentiment_vader
      (fun _ => some { neg := 0, neu := 1, pos := 0, compound := 6/100 })
      (some "nice")).sentiment = Sentiment.positive :=
  (analyze_label_thresholds _ "nice" _ (by decide) rfl).2.2.2.1 rfl

/-- C7: a record whose `comments` is absent or empty gets
`polarity = 0`, label neutral and the engine-default subjectivity `0.5`
during batch annotation, and the result does not depend on the scorer
(the scorer is not invoked). -/
theorem annotate_empty_comments_neutral
    (scorer scorer2 : String → Option VaderRaw) (r : ReviewRow)
    (h : r.comments = none ∨ r.comments = some "") :
    annotateRow scorer r =
      { base := r, polarity := 0, subjectivity := 1/2,
        sentiment := Sentiment.neutral, compound := 0, positive := 0,
        negative := 0, neutral_score := 1 }
    ∧ annotateRow scorer r = annotateRow scorer2 r := by
  rcases h with h | h <;>
    simp [annotateRow, analyze_sentiment_vader, h, neutralDefault]

/-- Witness for C7 at an absent comment. -/
theorem annotate_empty_comments_neutral_witness :
    annotateRow (fun _ => some { neg := 1, neu := 0, pos := 0, compound := -1 })
      { label := 0, id := 7, listing_id := 3, date := 0,
        reviewer_name := "p", comments := none } =
      { base := { label := 0, id := 7, listing_id := 3, date := 0,
                  reviewer_name := "p", comments := none },
        polarity := 0, subjectivity := 1/2, sentiment := Sentiment.neutral,
        compound := 0, positive := 0, negative := 0, neutral_score := 1 } :=
  (annotate_empty_comments_neutral _ (fun _ => none) _ (Or.inl rfl)).1

/-- C10: if the scorer raises on a non-empty text, single-text analysis
returns the neutral default scores (`polarity = 0`,
`subjectivity = 0.5`, label neutral, `compound = 0`, positive share
`0`, negative share `0`, neutral share `1`) instead of propagating the
error. -/
theorem analyze_scorer_exception_neutral (scorer : String → Option VaderRaw)
    (t : String) (ht : t ≠ "") (hs : scorer t = none) :
    analyze_sentiment_vader scorer (some t) =
      { polarity := 0, subjectivity := 1/2, sentiment := Sentiment.neutral,
        compound := 0, positive := 0, negative := 0, neutral_score := 1 } := by
  simp [analyze_sentiment_vader, ht, hs, neutralDefault]

/-- Witness for C10. -/
theorem analyze_scorer_exception_neutral_witness :
    analyze_sentiment_vader (fun _ => none) (some "broken") =
      { polarity := 0, subjectivity := 1/2, sentiment := Sentiment.neutral,
        compound := 0, positive := 0, negative := 0, neutral_score := 1 } :=
  analyze_scorer_exception_neutral _ "broken" (by decide) rfl

/-- A successful `load_data` is exactly a full date parse followed by
deduplication and per-row scoring. -/
theorem load_data_some_iff (parseDate : String → Option ℕ)
    (scorer : String → Option VaderRaw) (src : List RawRecord) (n : ℕ)
    (st2 : AppState) :
    load_data parseDate scorer src n = some st2 ↔
      ∃ rows, parseRows parseDate (src.take n) 0 = some rows ∧
        st2 = ⟨some ((drop_duplicates rows).map (annotateRow scorer))⟩ := by
  unfold load_data
  cases hp : parseRows parseDate (src.take n) 0 <;> simp [hp, eq_comm]

/-- C4: a load whose date parse fails produces no corpus (`load_data`
fails as a whole; every successfully produced corpus comes from a fully
parsed read), and a failed reload leaves the previously served
annotated frame untouched. -/
theorem load_failure_preserves_corpus (parseDate : String → Option ℕ)
    (scorer : String → Option VaderRaw) (src : List RawRecord)
    (sample_size : ℕ) (batch_size : Option ℕ) (st : AppState) :
    (∀ n st2, load_data parseDate scorer src n = some st2 →
      ∃ rows, parseRows parseDate (src.take n) 0 = some rows ∧
        st2.df_with_sentiment = some ((drop_duplicates rows).map (annotateRow scorer)))
    ∧ (∀ n, parseRows parseDate (src.take n) 0 = none →
        load_data parseDate scorer src n = none)
    ∧ ((reload_data parseDate scorer src sample_size batch_size st).2 = false →
        (reload_data parseDate scorer src sample_size batch_size st).1.df_with_sentiment
          = st.df_with_sentiment) := by
  refine ⟨?_, ?_, ?_⟩
  · intro n st2 h
    obtain ⟨rows, h1, h2⟩ := (load_data_some_iff parseDate scorer src n st2).1 h
    exact ⟨rows, h1, by rw [h2]⟩
  · intro n hp
    simp [load_data, hp]
  · have key : ∀ ns : ℕ,
        ((match load_data parseDate scorer src ns with
          | some st2 => (st2, true)
          | none => (st, false)) : AppState × Bool).2 = false →
        ((match load_data parseDate scorer src ns with
          | some st2 => (st2, true)
          | none => (st, false)) : AppState × Bool).1.df_with_sentiment
          = st.df_with_sentiment := by
      intro ns
      cases load_data parseDate scorer src ns <;> simp
    unfold reload_data
    exact key _

/-- Witness for C4: a reload over a source whose dates never parse
keeps the previously served one-row corpus. -/
theorem load_failure_preserves_corpus_witness :
    (reload_data (fun _ => none) (fun _ => none) [default] 3000 none
      ⟨some [default]⟩).1.df_with_sentiment = some [default] :=
  (load_failure_preserves_corpus (fun _ => none) (fun _ => none) [default]
    3000 none ⟨some [default]⟩).2.2 (by decide)

/-- C5: an incremental reload with previous count `C` and positive
`batch_size` re-invokes the full load at exactly
`min (C + batch_size) sample_size`: it reads that many raw records
(when the source suffices) and recomputes (re-parses, re-deduplicates,
re-annotates) the whole corpus from scratch. -/
theorem reload_incremental_size (parseDate : String → Option ℕ)
    (scorer : String → Option VaderRaw) (src : List RawRecord)
    (sample_size b : ℕ) (st : AppState) (prev : List ScoredRow)
    (hst : st.df_with_sentiment = some prev) (hb : 0 < b) :
    reload_data parseDate scorer src sample_size (some b) st =
      (match load_data parseDate scorer src (min (prev.length + b) sample_size) with
       | some st2 => (st2, true)
       | none => (st, false))
    ∧ (∀ rows,
        parseRows parseDate (src.take (min (prev.length + b) sample_size)) 0 = some rows →
        (reload_data parseDate scorer src sample_size (some b) st).1.df_with_sentiment
          = some ((drop_duplicates rows).map (annotateRow scorer)))
    ∧ (min (prev.length + b) sample_size ≤ src.length →
        (src.take (min (prev.length + b) sample_size)).length
          = min (prev.length + b) sample_size) := by
  have hsize : reload_data parseDate scorer src sample_size (some b) st =
      (match load_data parseDate scorer src (min (prev.length + b) sample_size) with
       | some st2 => (st2, true)
       | none => (st, false)) := by
    unfold reload_data
    rw [hst]
    simp [Nat.pos_iff_ne_zero.1 hb]
  refine ⟨hsize, ?_, ?_⟩
  · intro rows hrows
    rw [hsize]
    have : load_data parseDate scorer src (min (prev.length + b) sample_size) =
        some ⟨some ((drop_duplicates rows).map (annotateRow scorer))⟩ :=
      (load_data_some_iff _ _ _ _ _).2 ⟨rows, hrows, rfl⟩
    rw [this]
  · intro hle
    rw [List.length_take]
    omega

/-- Witness for C5 at the spec's scenario: a current load of 1000 with
`batch_size = 500` toward a target of 3000 loads exactly 1500 records
(here over an empty source, so the recomputed corpus is empty). -/
theorem reload_incremental_size_witness :
    reload_data (fun _ => some 0) (fun _ => none) [] 3000 (some 500)
      ⟨some (List.replicate 1000 default)⟩ =
      (match load_data (fun _ => some 0) (fun _ => none) []
          (min ((List.replicate 1000 (default : ScoredRow)).length + 500) 3000) with
       | some st2 => (st2, true)
       | none => (⟨some (List.replicate 1000 default)⟩, false)) :=
  (reload_incremental_size (fun _ => some 0) (fun _ => none) [] 3000 500
    ⟨some (List.replicate 1000 default)⟩ (List.replicate 1000 default)
    rfl (by norm_num)).1

/-- C1 (amended): for every corpus, sentiment filter, regex engine and
search text whose pattern compiles (in particular no/empty search
text), and all `page ≥ 1`, `per_page ≥ 1`, `get_reviews` returns the
page whose items are precisely positions
`[(page-1)*per_page, page*per_page)` of the filtered sequence in
corpus order — exactly `min per_page (total - (page-1)*per_page)` items
(truncated subtraction, so an empty list, not an error, beyond the
end) — with `total` the filtered count and `total_pages` the ceiling
division `total ⌈/⌉ per_page`. A search text whose pattern fails to
compile yields an error instead (`get_reviews_error_on_bad_pattern`). -/
theorem get_reviews_pagination (re_compile : String → Option (String → Bool))
    (corpus : List ScoredRow) (page per_page : ℕ)
    (sentiment_filter search_query : Option String)
    (filtered : List ScoredRow)
    (hp : 1 ≤ page) (hpp : 1 ≤ per_page)
    (hf : filterReviews re_compile corpus search_query sentiment_filter
            = some filtered) :
    get_reviews re_compile corpus page per_page sentiment_filter search_query =
      some { reviews := (filtered.drop ((page - 1) * per_page)).take per_page
             total := filtered.length
             page := page
             per_page := per_page
             total_pages := filtered.length ⌈/⌉ per_page }
    ∧ ((filtered.drop ((page - 1) * per_page)).take per_page).length
        = min per_page (filtered.length - (page - 1) * per_page) := by
  constructor
  · rw [Nat.ceilDiv_eq_add_pred_div]
    unfold get_reviews
    rw [hf]
  · simp [List.length_take, List.length_drop]

/-- C1 counterexample: the claim quantifies over every search text, but
the search text `"("` is an invalid regular expression — Python's
`re.compile("(")` raises `re.error` inside `get_reviews` (no
`try/except`), so no page of items is returned at all, against the
claim's "returns exactly min(...) items ... not an error". -/
theorem get_reviews_error_on_bad_pattern :
    get_reviews reFailParen (List.replicate 3 default) 1 20 none (some "(")
      = none := by
  simp [get_reviews, filterReviews, applySearchFilter, reFailParen]

/-- Witness for C1 (amended): page 2 of size 2 over a 3-row corpus with
an always-matching regex engine. -/
theorem get_reviews_pagination_witness :
    get_reviews (fun _ => some (fun _ => true)) (List.replicate 3 default)
        2 2 none none =
      some { reviews :=
               ((List.replicate 3 (default : ScoredRow)).drop ((2 - 1) * 2)).take 2
             total := (List.replicate 3 (default : ScoredRow)).length
             page := 2
             per_page := 2
             total_pages := (List.replicate 3 (default : ScoredRow)).length ⌈/⌉ 2 } :=
  (get_reviews_pagination (fun _ => some (fun _ => true))
    (List.replicate 3 default) 2 2 none none (List.replicate 3 default)
    (by norm_num) (by norm_num) rfl).1

/-- Every row kept by `dedupGo` is a row of the input whose `comments`
was not in the seen set. -/
theorem mem_dedupGo : ∀ (seen : List (Option String)) (l : List ReviewRow)
    (r : ReviewRow), r ∈ dedupGo seen l → r ∈ l ∧ r.comments ∉ seen
  | _, [], r => by simp [dedupGo]
  | seen, x :: rs, r => by
    by_cases h : x.comments ∈ seen
    · simp only [dedupGo, if_pos h]
      intro hr
      obtain ⟨h1, h2⟩ := mem_dedupGo seen rs r hr
      exact ⟨List.mem_cons_of_mem _ h1, h2⟩
    · simp only [dedupGo, if_neg h, List.mem_cons]
      rintro (rfl | hr)
      · exact ⟨Or.inl rfl, h⟩
      · obtain ⟨h1, h2⟩ := mem_dedupGo (x.comments :: seen) rs r hr
        exact ⟨Or.inr h1, fun hc => h2 (List.mem_cons_of_mem _ hc)⟩

/-- `dedupGo` yields a sublist: survivors keep their relative order. -/
theorem dedupGo_sublist : ∀ (seen : List (Option String))
    (l : List ReviewRow), List.Sublist (dedupGo seen l) l
  | _, [] => by simp [dedupGo]
  | seen, x :: rs => by
    by_cases h : x.comments ∈ seen
    · simpa only [dedupGo, if_pos h] using (dedupGo_sublist seen rs).cons x
    · simpa only [dedupGo, if_neg h] using
        (dedupGo_sublist (x.comments :: seen) rs).cons₂ x

/-- The surviving `comments` values are pairwise distinct. -/
theorem dedupGo_comments_nodup : ∀ (seen : List (Option String))
    (l : List ReviewRow),
    ((dedupGo seen l).map (fun r => r.comments)).Nodup
  | _, [] => by simp [dedupGo]
  | seen, x :: rs => by
    by_cases h : x.comments ∈ seen
    · simpa only [dedupGo, if_pos h] using dedupGo_comments_nodup seen rs
    · simp only [dedupGo, if_neg h, List.map_cons, List.nodup_cons]
      refine ⟨?_, dedupGo_comments_nodup (x.comments :: seen) rs⟩
      intro hc
      obtain ⟨r, hr, hrc⟩ := List.mem_map.1 hc
      exact (mem_dedupGo _ _ _ hr).2 (by simp [hrc])

/-- Every input row's `comments` value is either already seen or
represented among the survivors. -/
theorem dedupGo_covers : ∀ (seen : List (Option String))
    (l : List ReviewRow) (r : ReviewRow), r ∈ l →
    r.comments ∈ seen ∨ ∃ r2 ∈ dedupGo seen l, r2.comments = r.comments
  | _, [], r => by simp
  | seen, x :: rs, r => by
    intro hr
    by_cases h : x.comments ∈ seen
    · rcases List.mem_cons.1 hr with rfl | hr2
      · exact Or.inl h
      · rcases dedupGo_covers seen rs r hr2 with hs | ⟨r2, h2, h3⟩
        · exact Or.inl hs
        · exact Or.inr ⟨r2, by simp [dedupGo, h, h2], h3⟩
    · rcases List.mem_cons.1 hr with rfl | hr2
      · exact Or.inr ⟨r, by simp [dedupGo, h], rfl⟩
      · rcases dedupGo_covers (x.comments :: seen) rs r hr2 with hs | ⟨r2, h2, h3⟩
        · rcases List.mem_cons.1 hs with he | hs2
          · exact Or.inr ⟨x, by simp [dedupGo, h], he.symm⟩
          · exact Or.inl hs2
        · refine Or.inr ⟨r2, ?_, h3⟩
          simp only [dedupGo, if_neg h]
          exact List.mem_cons_of_mem _ h2

/-- Each survivor is the first input row carrying its `comments`
value. -/
theorem dedupGo_first : ∀ (seen : List (Option String))
    (l : List ReviewRow) (r2 : ReviewRow), r2 ∈ dedupGo seen l →
    l.find? (fun x => decide (x.comments = r2.comments)) = some r2
  | _, [], r2 => by simp [dedupGo]
  | seen, x :: rs, r2 => by
    intro hr
    by_cases h : x.comments ∈ seen
    · simp only [dedupGo, if_pos h] at hr
      have hne : ¬(x.comments = r2.comments) := fun he =>
        (mem_dedupGo seen rs r2 hr).2 (he ▸ h)
      rw [List.find?_cons_of_neg _ (by simpa using hne)]
      exact dedupGo_first seen rs r2 hr
    · simp only [dedupGo, if_neg h, List.mem_cons] at hr
      rcases hr with rfl | hr
      · rw [List.find?_cons_of_pos _ (by simp)]
      · have hne : ¬(x.comments = r2.comments) := fun he =>
          (mem_dedupGo _ _ _ hr).2 (by simp [he])
        rw [List.find?_cons_of_neg _ (by simpa using hne)]
        exact dedupGo_first (x.comments :: seen) rs r2 hr

/-- C8: load-time deduplication keeps a subsequence of the input
(original relative order preserved), survivors have pairwise-distinct
`comments`, every `comments` value of the input survives through some
row, each survivor is the first input row with its `comments` value,
and two records with identical `comments` leave exactly the first. -/
theorem dedup_keeps_first_occurrences (l : List ReviewRow) :
    List.Sublist (drop_duplicates l) l
    ∧ ((drop_duplicates l).map (fun r => r.comments)).Nodup
    ∧ (∀ r ∈ l, ∃ r2 ∈ drop_duplicates l, r2.comments = r.comments)
    ∧ (∀ r2 ∈ drop_duplicates l,
        l.find? (fun x => decide (x.comments = r2.comments)) = some r2)
    ∧ (∀ r0 r1 : ReviewRow, r0.comments = r1.comments →
        drop_duplicates [r0, r1] = [r0]) := by
  refine ⟨dedupGo_sublist [] l, dedupGo_comments_nodup [] l, ?_, ?_, ?_⟩
  · intro r hr
    rcases dedupGo_covers [] l r hr with hs | hs
    · simp at hs
    · exact hs
  · intro r2 hr2
    exact dedupGo_first [] l r2 hr2
  · intro r0 r1 hc
    simp [drop_duplicates, dedupGo, hc]

/-- Witness for C8: two rows sharing `comments` dedup to the first. -/
theorem dedup_keeps_first_occurrences_witness :
    drop_duplicates
      [ { label := 0, id := 5, listing_id := 1, date := 0,
          reviewer_name := "p", comments := some "same" },
        { label := 1, id := 6, listing_id := 1, date := 0,
          reviewer_name := "q", comments := some "same" } ]
      = [ { label := 0, id := 5, listing_id := 1, date := 0,
            reviewer_name := "p", comments := some "same" } ] :=
  (dedup_keeps_first_occurrences []).2.2.2.2
    { label := 0, id := 5, listing_id := 1, date := 0,
      reviewer_name := "p", comments := some "same" }
    { label := 1, id := 6, listing_id := 1, date := 0,
      reviewer_name := "q", comments := some "same" }
    rfl

/-- C2 (bug evidence): `get_statistics` feeds the pandas index *label*
returned by `idxmax` into `iloc`, a positional lookup. After
deduplication the labels `[0, 2, 3]` are not positions: the maximal
polarity `0.9` sits at label 2, but position 2 holds the label-3 row
with polarity `0.5`, so `most_positive_review` reports `0.5` — not the
maximal-polarity record the claim (and spec) require. -/
theorem statistics_wrong_most_positive :
    load_data anyDate scorerABC rawABC 4 = some ⟨some corpusABC⟩
    ∧ (most_positive_review corpusABC).map (fun e => e.polarity) = some (1/2)
    ∧ corpusABC.map (fun r => r.polarity) = [1/10, 9/10, 1/2]
    ∧ (∃ r ∈ corpusABC, r.polarity = 9/10)
    ∧ (1/2 : ℚ) < 9/10 := by
  refine ⟨?_, ?_, ?_, ⟨rowB, by simp [corpusABC], rfl⟩, by norm_num⟩
  · simp +decide only [load_data, rawABC, anyDate, parseRows, drop_duplicates,
      dedupGo, annotateRow, analyze_sentiment_vader, scorerABC, corpusABC,
      rowA, rowB, rowC, Option.map, List.map, List.mem_cons,
      List.mem_singleton, List.not_mem_nil]
    norm_num [round3, round_eq]
  · norm_num [most_positive_review, idxmaxPolarity, List.foldl, statExcerpt,
      corpusABC, rowA, rowB, rowC]
  · simp [corpusABC, rowA, rowB, rowC]

/-- `argsortInsertion` is sorted under the small-array argsort
comparison. -/
theorem argsortInsertion_sorted (keys : List ℚ) :
    List.Sorted (argsortRel keys) (argsortInsertion keys) :=
  List.sorted_insertionSort _ _

/-- The concrete small-array model meets `np.argsort`'s contract. -/
theorem argsortInsertion_sortsAscending : sortsAscending argsortInsertion := by
  intro keys
  refine ⟨List.perm_insertionSort _ _, ?_⟩
  refine (argsortInsertion_sorted keys).imp ?_
  rintro i j (h | ⟨he, _⟩)
  · exact le_of_lt h
  · exact le_of_eq he

/-- Under `np.argsort`'s contract, the reversed, truncated index
sequence has non-increasing keys. -/
theorem topIndices_sorted_desc (argsort : List ℚ → List ℕ)
    (hsort : sortsAscending argsort) (sims : List ℚ) (k : ℕ) :
    (topIndices argsort sims k).Pairwise
      (fun i j => sims.getD j 0 ≤ sims.getD i 0) := by
  have h2 : ((argsort sims).reverse).Pairwise
      (fun i j => sims.getD j 0 ≤ sims.getD i 0) := by
    rw [List.pairwise_reverse]
    exact (hsort sims).2
  exact h2.sublist (List.take_sublist _ _)

/-- C3 (amended): with a built cache, a successful query embedding, and
any index sorter meeting `np.argsort`'s contract (an ascending-by-key
permutation of the indices — numpy fixes no order among equal keys),
`search` returns the records selected by the reversed, truncated sort
with their similarity scores attached, and those scores are
non-increasing along the result. The order among equal-similarity
records is whatever the sorter produced — in particular it is NOT
guaranteed to be the original cache order
(`search_ties_not_cache_order` exhibits the program's actual
reversed-tie output at a cache size where numpy's argsort is its
stable insertion sort). -/
theorem search_sorted_by_similarity (s : SemanticSearch)
    (argsort : List ℚ → List ℕ) (embed : String → Option (List ℚ))
    (query : String) (top_k : ℕ) (embs : List (List ℚ))
    (data : List CachedReview) (qe : List ℚ)
    (hsort : sortsAscending argsort)
    (h1 : s.embeddings = some embs) (h2 : s.reviews_data = some data)
    (hq : embed query = some qe) :
    s.search argsort embed query top_k =
      (topIndices argsort (embs.map (cosineSim qe)) top_k).map
        (fun i => { record := data.getD i default,
                    similarity_score := (embs.map (cosineSim qe)).getD i 0 })
    ∧ (s.search argsort embed query top_k).Pairwise
        (fun x y => y.similarity_score ≤ x.similarity_score) := by
  have hs : s.search argsort embed query top_k =
      (topIndices argsort (embs.map (cosineSim qe)) top_k).map
        (fun i => { record := data.getD i default,
                    similarity_score := (embs.map (cosineSim qe)).getD i 0 }) := by
    obtain ⟨e, d⟩ := s
    cases h1
    cases h2
    simp [SemanticSearch.search, hq]
  refine ⟨hs, ?_⟩
  rw [hs, List.pairwise_map]
  exact topIndices_sorted_desc argsort hsort _ _

/-- C3 counterexample: two cached records with identical vectors (hence
equal similarity `1` to the query) come back in *reverse* cache order —
record id 1 before record id 0 — refuting "equal similarity appears in
original cache order". At this 2-element size numpy's argsort is its
stable insertion sort (`argsortInsertion`), so this is the program's
actual output. -/
theorem search_ties_not_cache_order :
    (tieCache.search argsortInsertion embedConst "q" 5).map
        (fun x => (x.record.id, x.similarity_score))
      = [(1, 1), (0, 1)] := by
  have hsims : ([[(1:ℚ), 0], [1, 0]].map (cosineSim [1, 0])) = [1, 1] := by
    norm_num [cosineSim, dotQ, ratSqrt, Nat.sqrt_one]
  simp only [SemanticSearch.search, tieCache, embedConst, hsims, topIndices,
    argsortInsertion, argsortRel, List.length_cons, List.length_nil, List.range,
    List.range.loop, List.insertionSort, List.orderedInsert, List.reverse,
    List.take, List.map, List.getD, List.reverseAux]
  norm_num [cosineSim, dotQ, ratSqrt, Nat.sqrt_one]

/-- Witness for C3 (amended) on the concrete tie cache with the
small-array sorter. -/
theorem search_sorted_by_similarity_witness :
    (tieCache.search argsortInsertion embedConst "q" 5).Pairwise
      (fun x y => y.similarity_score ≤ x.similarity_score) :=
  (search_sorted_by_similarity tieCache argsortInsertion embedConst "q" 5 _ _ _
    argsortInsertion_sortsAscending rfl rfl rfl).2

/-- C9: `search` never returns more than `top_k` entries, and returns
the empty list (not an error) when the cache is unbuilt or the query
embedding fails — for any index sorter. -/
theorem search_topk_bound_and_graceful (s : SemanticSearch)
    (argsort : List ℚ → List ℕ) (embed : String → Option (List ℚ))
    (query : String) (top_k : ℕ) (hk : 1 ≤ top_k) :
    (s.search argsort embed query top_k).length ≤ top_k
    ∧ (s.embeddings = none ∨ s.reviews_data = none →
        s.search argsort embed query top_k = [])
    ∧ (embed query = none → s.search argsort embed query top_k = []) := by
  obtain ⟨e, d⟩ := s
  refine ⟨?_, ?_, ?_⟩
  · cases e with
    | none => simp [SemanticSearch.search]
    | some embs =>
      cases d with
      | none => simp [SemanticSearch.search]
      | some data =>
        cases hq : embed query with
        | none => simp [SemanticSearch.search, hq]
        | some qe =>
          simp only [SemanticSearch.search, hq, topIndices, List.length_map]
          exact le_trans (Nat.le_of_eq (List.length_take _ _)) (min_le_left _ _)
  · rintro (he | hd)
    · cases he
      simp [SemanticSearch.search]
    · cases hd
      cases e <;> simp [SemanticSearch.search]
  · intro hq
    cases e <;> cases d <;> simp [SemanticSearch.search, hq]

/-- Witness for C9: an unbuilt cache yields the empty result at
`top_k = 1`. -/
theorem search_topk_bound_and_graceful_witness :
    (({ embeddings := none, reviews_data := none } : SemanticSearch).search
      argsortInsertion (fun _ => none) "anything" 1) = [] :=
  (search_topk_bound_and_graceful
    { embeddings := none, reviews_data := none } argsortInsertion
    (fun _ => none) "anything" 1 (le_refl 1)).2.1 (Or.inl rfl)
